import Mathlib

/-!
Verification of the JACK capture bridge (plugins/linux-jack/jack-wrapper.c).

The C code is shallowly embedded: the mutable session struct jack_data becomes
an immutable record and each C function becomes a state-transforming Lean
function.  Calls into the external JACK engine (buffer sizes, sample rate,
frame times, success or failure of client/port/callback operations) are
modelled by an environment record jack_env supplied to each function.
Audio samples (jack_default_audio_sample_t, a 32-bit float) are never
inspected arithmetically by the code, only copied, so they are modelled by an
opaque-to-the-program numeric type.
-/

/-- Model of jack_default_audio_sample_t: the code only copies samples, so an
integer stands in for the 32-bit float. -/
abbrev sample := Int

/-- Model of enum speaker_layout from obs (the constructors used here). -/
inductive speaker_layout where
  | SPEAKERS_UNKNOWN
  | SPEAKERS_MONO
  | SPEAKERS_STEREO
  | SPEAKERS_2POINT1
  | SPEAKERS_4POINT0
  | SPEAKERS_4POINT1
  | SPEAKERS_5POINT1
  | SPEAKERS_7POINT1
  deriving DecidableEq, Repr

/-- Model of enum audio_format from obs (the constructors relevant here). -/
inductive audio_format where
  | AUDIO_FORMAT_UNKNOWN
  | AUDIO_FORMAT_FLOAT
  | AUDIO_FORMAT_FLOAT_PLANAR
  deriving DecidableEq, Repr

/-- struct jack_ring_buffer_item: per-channel sample arrays, frame count,
timestamp. -/
structure jack_ring_buffer_item where
  buffer : List (List sample)
  nframes : Nat
  timestamp : Nat
  deriving DecidableEq, Repr

/-- Default item, used only to totalize out-of-range slot reads that are
undefined behaviour in the C. -/
def null_item : jack_ring_buffer_item := { buffer := [], nframes := 0, timestamp := 0 }

/-- struct jack_data: the session.  Pointer fields become either Bool
(non-null or null handle) or Option (allocated or freed storage). -/
structure jack_data where
  channels : Nat
  start_jack_server : Bool
  jack_client : Bool
  jack_ports : Option (List Bool)
  activated : Bool
  rb : Option (List jack_ring_buffer_item)
  rb_buffer_size : Nat
  rb_items : Nat
  rb_read : Nat
  rb_write : Nat
  transfer_thread_started : Bool
  deriving DecidableEq, Repr

/-- Environment: what the external JACK engine and the OS report to the code
during one call.  Function results of engine calls are inputs of the model. -/
structure jack_env where
  buffer_size : Nat
  sample_rate : Nat
  last_frame_time : Nat
  frames_to_time : Nat → Nat
  client_open_ok : Bool
  port_register_ok : Nat → Bool
  set_buffer_size_callback_ok : Bool
  set_process_callback_ok : Bool
  activate_ok : Bool
  pthread_create_ok : Bool

/-- jack_channels_to_obs_speakers: the static channel-count to layout table. -/
def jack_channels_to_obs_speakers : Nat → speaker_layout
  | 1 => .SPEAKERS_MONO
  | 2 => .SPEAKERS_STEREO
  | 3 => .SPEAKERS_2POINT1
  | 4 => .SPEAKERS_4POINT0
  | 5 => .SPEAKERS_4POINT1
  | 6 => .SPEAKERS_5POINT1
  | 8 => .SPEAKERS_7POINT1
  | _ => .SPEAKERS_UNKNOWN

/-- One zeroed slot as produced by bzalloc inside create_rb: channels sample
arrays of rb_buffer_size zero samples, zero frame count, zero timestamp. -/
def zeroed_item (channels buffer_size : Nat) : jack_ring_buffer_item :=
  { buffer := List.replicate channels (List.replicate buffer_size 0)
    nframes := 0
    timestamp := 0 }

/-- create_rb: reads the engine buffer size and sample rate, sizes the ring
buffer to sample_rate / rb_buffer_size slots, zero-allocates them and resets
both cursors. -/
def create_rb (env : jack_env) (data : jack_data) : jack_data :=
  let buffer_size := env.buffer_size
  let items := env.sample_rate / buffer_size
  { data with
    rb_buffer_size := buffer_size
    rb_items := items
    rb := some (List.replicate items (zeroed_item data.channels buffer_size))
    rb_read := 0
    rb_write := 0 }

/-- destroy_rb: no-op on a null buffer, otherwise zeroes both cursors and
frees the slot storage. -/
def destroy_rb (data : jack_data) : jack_data :=
  match data.rb with
  | none => data
  | some _ => { data with rb_write := 0, rb_read := 0, rb := none }

/-- jack_buffer_size_callback: no-op when the size is unchanged, otherwise
destroys and recreates the ring buffer under the mutex with the new stored
period size. -/
def jack_buffer_size_callback (env : jack_env) (nframes : Nat) (data : jack_data) :
    jack_data × Int :=
  if nframes = data.rb_buffer_size then (data, 0)
  else
    let d1 := destroy_rb data
    let d2 := { d1 with rb_buffer_size := nframes }
    (create_rb env d2, 0)

/-- memcpy of n samples from src into the front of dst, keeping the tail of
dst beyond n. -/
def memcpy_samples (dst src : List sample) (n : Nat) : List sample :=
  src.take n ++ dst.drop n

/-- The per-channel copy loop of jack_process_callback: for each channel i
below channels, copy nframes samples of port buffer i into slot array i. -/
def copy_ports (buffer : List (List sample)) (channels : Nat)
    (ports : Nat → List sample) (nframes : Nat) : List (List sample) :=
  buffer.mapIdx fun i b => if i < channels then memcpy_samples b (ports i) nframes else b

/-- jack_process_callback: the real-time producer.  On a null session it
returns 0 untouched; otherwise it copies every port buffer into the slot at
rb_write mod rb_items, stamps frame count and engine time on the slot, and
atomically increments rb_write.  The ports argument is the engine-provided
per-port sample data (jack_port_get_buffer). -/
def jack_process_callback (env : jack_env) (ports : Nat → List sample) (nframes : Nat) :
    Option jack_data → Option jack_data × Int
  | none => (none, 0)
  | some d =>
    let rb := d.rb.getD []
    let idx := d.rb_write % d.rb_items
    let old := rb.getD idx null_item
    let item : jack_ring_buffer_item :=
      { buffer := copy_ports old.buffer d.channels ports nframes
        nframes := nframes
        timestamp := env.frames_to_time env.last_frame_time }
    (some { d with rb := some (rb.set idx item), rb_write := d.rb_write + 1 }, 0)

/-- struct obs_source_audio as filled by the transfer worker. -/
structure obs_source_audio where
  data : List (List sample)
  frames : Nat
  speakers : speaker_layout
  format : audio_format
  samples_per_sec : Nat
  timestamp : Nat
  deriving DecidableEq, Repr

/-- What one iteration of the transfer worker loop does besides changing the
session state: sleep for a number of milliseconds, or forward one audio block
to obs_source_output_audio. -/
inductive worker_action where
  | sleep_ms : Nat → worker_action
  | forward : obs_source_audio → worker_action
  deriving DecidableEq, Repr

/-- One iteration of the jack_transfer_worker loop.  Returns the successor
state and what the iteration did; none means the loop condition failed and
the worker exits. -/
def jack_transfer_step (env : jack_env) (d : jack_data) : jack_data × Option worker_action :=
  if d.activated then
    if d.rb_write ≤ d.rb_read then
      (d, some (.sleep_ms 20))
    else
      let rb := d.rb.getD []
      let item := rb.getD (d.rb_read % d.rb_items) null_item
      let out : obs_source_audio :=
        { speakers := jack_channels_to_obs_speakers d.channels
          samples_per_sec := env.sample_rate
          format := .AUDIO_FORMAT_FLOAT_PLANAR
          data := (List.range d.channels).map fun i => item.buffer.getD i []
          frames := item.nframes
          timestamp := item.timestamp * 1000 }
      ({ d with rb_read := d.rb_read + 1 }, some (.forward out))
  else (d, none)

/-- The port registration loop of jack_init, starting at port index i with k
ports left to register.  Returns the port array (true for a registered,
non-null handle) and whether every registration succeeded; on the first
failure the loop is aborted. -/
def register_ports_from (env : jack_env) (ports : List Bool) (i k : Nat) : List Bool × Bool :=
  match k with
  | 0 => (ports, true)
  | k + 1 =>
    if env.port_register_ok i then register_ports_from env (ports.set i true) (i + 1) k
    else (ports, false)

/-- jack_init: the startup sequence.  Already-open client short-circuits to
success.  Each failing step jumps to the error label, which only returns 1:
nothing acquired before the failure is released. -/
def jack_init (env : jack_env) (d0 : jack_data) : jack_data × Int :=
  if d0.jack_client then (d0, 0)
  else if env.client_open_ok = false then (d0, 1)
  else
    let d1 : jack_data := { d0 with jack_client := true }
    let pr := register_ports_from env (List.replicate d1.channels false) 0 d1.channels
    let d2 : jack_data := { d1 with jack_ports := some pr.1 }
    if pr.2 = false then (d2, 1)
    else if env.set_buffer_size_callback_ok = false then (d2, 1)
    else if env.set_process_callback_ok = false then (d2, 1)
    else
      let d3 := create_rb env d2
      if env.activate_ok = false then (d3, 1)
      else
        let d4 : jack_data := { d3 with activated := true }
        if env.pthread_create_ok = false then (d4, 1)
        else ({ d4 with transfer_thread_started := true }, 0)

/-- unregister_ports: unregisters every non-null port, frees the array, nulls
the pointer. -/
def unregister_ports (data : jack_data) : jack_data :=
  { data with jack_ports := none }

/-- The observable teardown steps of deactivate_jack, in execution order. -/
inductive teardown_event where
  | engine_deactivate
  | clear_activated_flag
  | join_worker_thread
  | ports_unregistered
  | engine_client_closed
  | ring_buffer_destroyed
  deriving DecidableEq, Repr

/-- deactivate_jack: teardown.  Returns the final state and the trace of
steps in the order the code performs them.  jack_deactivate runs before the
activated flag is cleared. -/
def deactivate_jack (d : jack_data) : jack_data × List teardown_event :=
  if d.jack_client then
    let (d1, t1) :=
      if d.activated then
        ({ d with activated := false },
         [teardown_event.engine_deactivate, teardown_event.clear_activated_flag])
      else (d, [])
    let (d2, t2) :=
      if d1.transfer_thread_started then
        ({ d1 with transfer_thread_started := false }, [teardown_event.join_worker_thread])
      else (d1, [])
    let d3 := unregister_ports d2
    let d4 : jack_data := { d3 with jack_client := false }
    let d5 := destroy_rb d4
    (d5, t1 ++ t2 ++
      [teardown_event.ports_unregistered, teardown_event.engine_client_closed,
       teardown_event.ring_buffer_destroyed])
  else (d, [])

/-! Concrete fixtures used to instantiate hypothesis-bearing theorems. -/

/-- A JACK environment where every engine call succeeds: 48 kHz, period 480. -/
def demo_env : jack_env :=
  { buffer_size := 480
    sample_rate := 48000
    last_frame_time := 960
    frames_to_time := fun t => t * 21
    client_open_ok := true
    port_register_ok := fun _ => true
    set_buffer_size_callback_ok := true
    set_process_callback_ok := true
    activate_ok := true
    pthread_create_ok := true }

/-- The demo environment after the engine renegotiated the period to 128. -/
def resize_env : jack_env :=
  { demo_env with buffer_size := 128 }

/-- A live session, ring buffer of 4 slots of 256 frames, with two slots
pending (rb_read = 3 < rb_write = 5). -/
def demo_busy : jack_data :=
  { channels := 2
    start_jack_server := false
    jack_client := true
    jack_ports := some [true, true]
    activated := true
    rb := some (List.replicate 4 (zeroed_item 2 256))
    rb_buffer_size := 256
    rb_items := 4
    rb_read := 3
    rb_write := 5
    transfer_thread_started := true }

/-- A freshly zero-initialized session, before jack_init. -/
def fresh_data : jack_data :=
  { channels := 2
    start_jack_server := false
    jack_client := false
    jack_ports := none
    activated := false
    rb := none
    rb_buffer_size := 0
    rb_items := 0
    rb_read := 0
    rb_write := 0
    transfer_thread_started := false }

/-- An environment where opening the client succeeds but registering the
second port (index 1) fails. -/
def failing_port_env : jack_env :=
  { demo_env with port_register_ok := fun i => i == 0 }

/-- C6: the speaker-layout table maps channel counts 1, 2, 3, 4, 5, 6, 8 to
mono, stereo, 2.1, 4.0, 4.1, 5.1, 7.1 respectively, and every other count,
7 included, to unknown. -/
theorem jack_channels_to_obs_speakers_spec :
    jack_channels_to_obs_speakers 1 = .SPEAKERS_MONO ∧
    jack_channels_to_obs_speakers 2 = .SPEAKERS_STEREO ∧
    jack_channels_to_obs_speakers 3 = .SPEAKERS_2POINT1 ∧
    jack_channels_to_obs_speakers 4 = .SPEAKERS_4POINT0 ∧
    jack_channels_to_obs_speakers 5 = .SPEAKERS_4POINT1 ∧
    jack_channels_to_obs_speakers 6 = .SPEAKERS_5POINT1 ∧
    jack_channels_to_obs_speakers 8 = .SPEAKERS_7POINT1 ∧
    ∀ c : Nat, c ≠ 1 → c ≠ 2 → c ≠ 3 → c ≠ 4 → c ≠ 5 → c ≠ 6 → c ≠ 8 →
      jack_channels_to_obs_speakers c = .SPEAKERS_UNKNOWN := by
  refine ⟨rfl, rfl, rfl, rfl, rfl, rfl, rfl, ?_⟩
  intro c h1 h2 h3 h4 h5 h6 h8
  match c with
  | 0 => rfl
  | 1 => exact absurd rfl h1
  | 2 => exact absurd rfl h2
  | 3 => exact absurd rfl h3
  | 4 => exact absurd rfl h4
  | 5 => exact absurd rfl h5
  | 6 => exact absurd rfl h6
  | 7 => rfl
  | 8 => exact absurd rfl h8
  | n + 9 => rfl

/-- Witness for C6: channel count 7 maps to unknown. -/
theorem jack_channels_to_obs_speakers_spec_witness :
    jack_channels_to_obs_speakers 7 = .SPEAKERS_UNKNOWN :=
  jack_channels_to_obs_speakers_spec.2.2.2.2.2.2.2 7
    (by decide) (by decide) (by decide) (by decide) (by decide) (by decide) (by decide)

/-- C5: for a positive period size, create_rb produces capacity
sample_rate / buffer_size (integer division), resets both cursors to 0, and
fills the buffer with that many zeroed slots, each holding channels sample
arrays of buffer_size zero samples. -/
theorem create_rb_spec (env : jack_env) (d : jack_data) (_hP : 0 < env.buffer_size) :
    (create_rb env d).rb_items = env.sample_rate / env.buffer_size ∧
    (create_rb env d).rb_buffer_size = env.buffer_size ∧
    (create_rb env d).rb_read = 0 ∧
    (create_rb env d).rb_write = 0 ∧
    ∃ l, (create_rb env d).rb = some l ∧
      l.length = env.sample_rate / env.buffer_size ∧
      ∀ item ∈ l, item.nframes = 0 ∧ item.timestamp = 0 ∧
        item.buffer.length = d.channels ∧
        ∀ b ∈ item.buffer, b.length = env.buffer_size ∧ ∀ s ∈ b, s = 0 := by
  refine ⟨rfl, rfl, rfl, rfl, ?_⟩
  refine ⟨_, rfl, List.length_replicate _ _, ?_⟩
  intro item hitem
  obtain rfl := List.eq_of_mem_replicate hitem
  refine ⟨rfl, rfl, List.length_replicate _ _, ?_⟩
  intro b hb
  obtain rfl := List.eq_of_mem_replicate hb
  exact ⟨List.length_replicate _ _, fun s hs => List.eq_of_mem_replicate hs⟩

/-- Witness for C5: 48 kHz with period 480 gives capacity 100 and zero
cursors. -/
theorem create_rb_spec_witness :
    (create_rb demo_env fresh_data).rb_items = 100 ∧
    (create_rb demo_env fresh_data).rb_read = 0 ∧
    (create_rb demo_env fresh_data).rb_write = 0 := by
  have h := create_rb_spec demo_env fresh_data (by decide)
  exact ⟨h.1.trans (by decide), h.2.2.1, h.2.2.2.1⟩

/-- C10: jack_init on a session whose engine client handle is already
non-null immediately returns 0 and leaves the session state unchanged. -/
theorem jack_init_idempotent (env : jack_env) (d : jack_data)
    (h : d.jack_client = true) :
    jack_init env d = (d, 0) := by
  simp [jack_init, h]

/-- Witness for C10 on the live demo session. -/
theorem jack_init_idempotent_witness :
    jack_init demo_env demo_busy = (demo_busy, 0) :=
  jack_init_idempotent demo_env demo_busy rfl

/-- C9: the producer callback advances rb_write by exactly one and modifies
no other cursor or structural field: rb_read, the stored period size
rb_buffer_size, the capacity rb_items, the channel count, the flags and
handles are all unchanged, and the slot array stays allocated with the same
length.  On a null session nothing at all is modified. -/
theorem jack_process_callback_frame (env : jack_env) (ports : Nat → List sample)
    (nframes : Nat) (d : jack_data) :
    (∃ d2, jack_process_callback env ports nframes (some d) = (some d2, 0) ∧
      d2.rb_write = d.rb_write + 1 ∧
      d2.rb_read = d.rb_read ∧
      d2.rb_buffer_size = d.rb_buffer_size ∧
      d2.rb_items = d.rb_items ∧
      d2.channels = d.channels ∧
      d2.start_jack_server = d.start_jack_server ∧
      d2.activated = d.activated ∧
      d2.jack_client = d.jack_client ∧
      d2.jack_ports = d.jack_ports ∧
      d2.transfer_thread_started = d.transfer_thread_started ∧
      ∃ l2, d2.rb = some l2 ∧ l2.length = (d.rb.getD []).length) ∧
    jack_process_callback env ports nframes none = (none, 0) := by
  refine ⟨⟨_, rfl, rfl, rfl, rfl, rfl, rfl, rfl, rfl, rfl, rfl, rfl, ?_⟩, rfl⟩
  exact ⟨_, rfl, List.length_set _ _ _⟩

/-- C2: one iteration of the transfer worker while the session is activated:
when rb_read has caught up with rb_write it sleeps 20 ms and leaves the state
untouched; otherwise it forwards the slot at rb_read mod capacity as a
planar-float block carrying the layout derived from the channel count, the
slot's frame count and the slot's timestamp scaled by 1000, and then
increments rb_read by one. -/
theorem jack_transfer_step_spec (env : jack_env) (d : jack_data)
    (hact : d.activated = true) (l : List jack_ring_buffer_item)
    (hrb : d.rb = some l) (hlen : d.rb_items = l.length) :
    (d.rb_write ≤ d.rb_read →
      jack_transfer_step env d = (d, some (.sleep_ms 20))) ∧
    (d.rb_read < d.rb_write →
      jack_transfer_step env d =
        ({ d with rb_read := d.rb_read + 1 },
         some (.forward
           { speakers := jack_channels_to_obs_speakers d.channels
             samples_per_sec := env.sample_rate
             format := .AUDIO_FORMAT_FLOAT_PLANAR
             data := (List.range d.channels).map fun i =>
               (l.getD (d.rb_read % l.length) null_item).buffer.getD i []
             frames := (l.getD (d.rb_read % l.length) null_item).nframes
             timestamp := (l.getD (d.rb_read % l.length) null_item).timestamp * 1000 }))) := by
  constructor
  · intro hle
    simp [jack_transfer_step, hact, hle]
  · intro hlt
    have hnle : ¬ d.rb_write ≤ d.rb_read := Nat.not_le.mpr hlt
    simp [jack_transfer_step, hact, hnle, hrb, hlen]

/-- Witness for C2 on the live demo session, which has pending slots. -/
theorem jack_transfer_step_spec_witness :
    jack_transfer_step demo_env demo_busy =
      ({ demo_busy with rb_read := 4 },
       some (.forward
         { speakers := .SPEAKERS_STEREO
           samples_per_sec := 48000
           format := .AUDIO_FORMAT_FLOAT_PLANAR
           data := [List.replicate 256 0, List.replicate 256 0]
           frames := 0
           timestamp := 0 })) := by
  have h := (jack_transfer_step_spec demo_env demo_busy rfl
    (List.replicate 4 (zeroed_item 2 256)) rfl rfl).2 (by decide)
  rw [h]
  rfl

/-- C4: the resize callback is a no-op returning 0 when the new period size
equals the stored one; otherwise, given that the engine now reports the new
size, it returns 0 with the stored period size updated to the new value and a
freshly allocated zeroed ring buffer of capacity sample_rate / nframes whose
cursors are both 0, discarding the previous slots. -/
theorem jack_buffer_size_callback_spec (env : jack_env) (nframes : Nat)
    (d : jack_data) (henv : env.buffer_size = nframes) :
    (nframes = d.rb_buffer_size →
      jack_buffer_size_callback env nframes d = (d, 0)) ∧
    (nframes ≠ d.rb_buffer_size →
      jack_buffer_size_callback env nframes d =
        ({ d with
            rb_buffer_size := nframes
            rb_items := env.sample_rate / nframes
            rb := some (List.replicate (env.sample_rate / nframes)
              (zeroed_item d.channels nframes))
            rb_read := 0
            rb_write := 0 }, 0)) := by
  constructor
  · intro heq
    simp [jack_buffer_size_callback, heq]
  · intro hne
    cases hrb : d.rb with
    | none => simp [jack_buffer_size_callback, hne, destroy_rb, create_rb, hrb, henv]
    | some l => simp [jack_buffer_size_callback, hne, destroy_rb, create_rb, hrb, henv]

/-- Witness for C4: resizing the live demo session from 256 to 128 frames at
48 kHz yields stored period 128, capacity 375 and zeroed cursors. -/
theorem jack_buffer_size_callback_spec_witness :
    (jack_buffer_size_callback resize_env 128 demo_busy).1.rb_buffer_size = 128 ∧
    (jack_buffer_size_callback resize_env 128 demo_busy).1.rb_items = 375 ∧
    (jack_buffer_size_callback resize_env 128 demo_busy).1.rb_read = 0 ∧
    (jack_buffer_size_callback resize_env 128 demo_busy).1.rb_write = 0 := by
  have h := (jack_buffer_size_callback_spec resize_env 128 demo_busy rfl).2 (by decide)
  rw [h]
  exact ⟨rfl, rfl, rfl, rfl⟩

/-- C3 counterexample: the claim includes the resize operation among those
across which both cursors are non-decreasing, but resizing the live demo
session (rb_write = 5, rb_read = 3) resets both cursors to 0, strictly
decreasing them. -/
theorem cursor_monotonicity_cex :
    (jack_buffer_size_callback resize_env 128 demo_busy).1.rb_write <
      demo_busy.rb_write ∧
    (jack_buffer_size_callback resize_env 128 demo_busy).1.rb_read <
      demo_busy.rb_read := by
  constructor <;> decide

/-- C3 amended: the producer step advances only rb_write (never decreasing
either cursor) and the consumer step advances only rb_read; both preserve
rb_read ≤ rb_write, and the resize callback also preserves rb_read ≤
rb_write, resetting both cursors to 0 whenever the period size changes. -/
theorem cursor_monotonicity_amended (env : jack_env) (ports : Nat → List sample)
    (nframes : Nat) (d : jack_data) :
    (∀ d2 r, jack_process_callback env ports nframes (some d) = (some d2, r) →
      d.rb_write ≤ d2.rb_write ∧ d2.rb_read = d.rb_read ∧
      (d.rb_read ≤ d.rb_write → d2.rb_read ≤ d2.rb_write)) ∧
    (∀ d2 a, jack_transfer_step env d = (d2, a) →
      d.rb_read ≤ d2.rb_read ∧ d2.rb_write = d.rb_write ∧
      (d.rb_read ≤ d.rb_write → d2.rb_read ≤ d2.rb_write)) ∧
    (∀ d2 r, jack_buffer_size_callback env nframes d = (d2, r) →
      (d.rb_read ≤ d.rb_write → d2.rb_read ≤ d2.rb_write) ∧
      (nframes ≠ d.rb_buffer_size → d2.rb_read = 0 ∧ d2.rb_write = 0)) := by
  refine ⟨?_, ?_, ?_⟩
  · intro d2 r h
    simp only [jack_process_callback, Prod.mk.injEq, Option.some.injEq] at h
    obtain ⟨hd2, hr⟩ := h
    subst hd2
    exact ⟨Nat.le_succ _, rfl, fun hle => Nat.le_succ_of_le hle⟩
  · intro d2 a h
    by_cases hact : d.activated
    · by_cases hle : d.rb_write ≤ d.rb_read
      · simp only [jack_transfer_step, hact, hle, if_true, Prod.mk.injEq] at h
        obtain ⟨hd2, ha⟩ := h
        subst hd2
        exact ⟨Nat.le_refl _, rfl, fun hh => hh⟩
      · simp [jack_transfer_step, hact, hle, Prod.mk.injEq] at h
        obtain ⟨hd2, ha⟩ := h
        subst hd2
        refine ⟨Nat.le_succ _, rfl, fun hh => ?_⟩
        show d.rb_read + 1 ≤ d.rb_write
        omega
    · simp [jack_transfer_step, hact, Prod.mk.injEq] at h
      obtain ⟨hd2, ha⟩ := h
      subst hd2
      exact ⟨Nat.le_refl _, rfl, fun hh => hh⟩
  · intro d2 r h
    by_cases hif : nframes = d.rb_buffer_size
    · simp only [jack_buffer_size_callback, hif, if_true, Prod.mk.injEq] at h
      obtain ⟨hd2, hr⟩ := h
      subst hd2
      exact ⟨fun hh => hh, fun hne => absurd hif hne⟩
    · simp [jack_buffer_size_callback, hif, Prod.mk.injEq] at h
      obtain ⟨hd2, hr⟩ := h
      subst hd2
      exact ⟨fun hh => Nat.le_refl 0, fun hne => ⟨rfl, rfl⟩⟩

/-- Witness for amended C3: consumer step and resize on the live demo
session keep the cursor invariants. -/
theorem cursor_monotonicity_amended_witness :
    demo_busy.rb_read ≤ (jack_transfer_step demo_env demo_busy).1.rb_read ∧
    (jack_buffer_size_callback resize_env 128 demo_busy).1.rb_read ≤
      (jack_buffer_size_callback resize_env 128 demo_busy).1.rb_write := by
  constructor
  · exact ((cursor_monotonicity_amended demo_env (fun i => []) 128 demo_busy).2.1
      (jack_transfer_step demo_env demo_busy).1
      (jack_transfer_step demo_env demo_busy).2 rfl).1
  · exact ((cursor_monotonicity_amended resize_env (fun i => []) 128 demo_busy).2.2
      (jack_buffer_size_callback resize_env 128 demo_busy).1
      (jack_buffer_size_callback resize_env 128 demo_busy).2 rfl).1 (by decide)

/-- getD of a just-set index is the stored value. -/
theorem list_getD_set_self {α : Type} (l : List α) (i : Nat) (v dflt : α)
    (h : i < l.length) : (l.set i v).getD i dflt = v := by
  rw [List.getD_eq_getElem _ _ (by simpa using h)]
  exact List.getElem_set_self ..

/-- C1: on a non-null session with an allocated, well-formed ring buffer,
the producer callback writes the slot at rb_write mod capacity: the first
nframes samples of each channel's slot array become exactly that port's
samples, the slot's frame count becomes nframes, its timestamp becomes the
engine frame time pushed through frames_to_time, every other slot is
untouched, and rb_write is incremented by one. -/
theorem jack_process_callback_spec (env : jack_env) (ports : Nat → List sample)
    (nframes : Nat) (d : jack_data) (l : List jack_ring_buffer_item)
    (hrb : d.rb = some l) (hlen : d.rb_items = l.length) (hpos : 0 < l.length)
    (hchan : ∀ item ∈ l, item.buffer.length = d.channels)
    (hports : ∀ i, i < d.channels → (ports i).length = nframes) :
    ∃ d2, jack_process_callback env ports nframes (some d) = (some d2, 0) ∧
      d2.rb_write = d.rb_write + 1 ∧ d2.rb_read = d.rb_read ∧
      ∃ l2, d2.rb = some l2 ∧ l2.length = l.length ∧
        (∀ j, j < l.length → j ≠ d.rb_write % l.length →
          l2.getD j null_item = l.getD j null_item) ∧
        (l2.getD (d.rb_write % l.length) null_item).nframes = nframes ∧
        (l2.getD (d.rb_write % l.length) null_item).timestamp =
          env.frames_to_time env.last_frame_time ∧
        (l2.getD (d.rb_write % l.length) null_item).buffer.length = d.channels ∧
        ∀ i, i < d.channels →
          ((l2.getD (d.rb_write % l.length) null_item).buffer.getD i []).take nframes
            = ports i := by
  have hidx : d.rb_write % l.length < l.length := Nat.mod_lt _ hpos
  have hre : jack_process_callback env ports nframes (some d) =
      (some { d with
        rb := some (l.set (d.rb_write % l.length)
          { buffer := copy_ports (l.getD (d.rb_write % l.length) null_item).buffer
              d.channels ports nframes
            nframes := nframes
            timestamp := env.frames_to_time env.last_frame_time })
        rb_write := d.rb_write + 1 }, 0) := by
    simp only [jack_process_callback, hrb, Option.getD_some, hlen]
  have hbl : (l.getD (d.rb_write % l.length) null_item).buffer.length = d.channels := by
    rw [List.getD_eq_getElem _ _ hidx]
    exact hchan _ (List.getElem_mem hidx)
  refine ⟨_, hre, rfl, rfl, _, rfl, List.length_set _ _ _, ?_, ?_, ?_, ?_, ?_⟩
  · intro j hj hne
    rw [List.getD_eq_getElem _ _ (by simpa using hj), List.getD_eq_getElem _ _ hj]
    exact List.getElem_set_ne (Ne.symm hne) _
  · rw [list_getD_set_self _ _ _ _ hidx]
  · rw [list_getD_set_self _ _ _ _ hidx]
  · rw [list_getD_set_self _ _ _ _ hidx]
    simpa [copy_ports] using hbl
  · intro i hi
    rw [list_getD_set_self _ _ _ _ hidx]
    have hilt : i < ((l.getD (d.rb_write % l.length) null_item).buffer).length := by
      rw [hbl]; exact hi
    rw [List.getD_eq_getElem _ _ (by simpa [copy_ports] using hilt)]
    simp only [copy_ports, List.getElem_mapIdx, hi, if_true]
    show (memcpy_samples _ (ports i) nframes).take nframes = ports i
    rw [memcpy_samples]
    have hp : (ports i).take nframes = ports i := by
      rw [← hports i hi, List.take_length]
    rw [hp, List.take_left' (hports i hi)]

/-- Port buffers used to instantiate the producer callback: channel i
delivers 256 copies of the value i + 1. -/
def demo_ports : Nat → List sample := fun i => List.replicate 256 ((i : Int) + 1)

/-- Witness for C1 on the live demo session: the callback succeeds and
advances rb_write from 5 to 6. -/
theorem jack_process_callback_spec_witness :
    ∃ d2, jack_process_callback demo_env demo_ports 256 (some demo_busy) = (some d2, 0) ∧
      d2.rb_write = 6 := by
  obtain ⟨d2, he, hw, -, -⟩ := jack_process_callback_spec demo_env demo_ports 256 demo_busy
    (List.replicate 4 (zeroed_item 2 256)) rfl rfl (by decide)
    (fun item h => by rw [List.eq_of_mem_replicate h]; rfl)
    (fun i hi => List.length_replicate _ _)
  exact ⟨d2, he, hw⟩

/-- Whether every startup step of jack_init would succeed in env for a
session with the given channel count. -/
def init_steps_ok (env : jack_env) (channels : Nat) : Bool :=
  env.client_open_ok &&
  (register_ports_from env (List.replicate channels false) 0 channels).2 &&
  env.set_buffer_size_callback_ok && env.set_process_callback_ok &&
  env.activate_ok && env.pthread_create_ok

/-- C7 counterexample: with the second port registration failing, jack_init
returns the failure code but the session keeps the open client handle and
the first registered port: nothing is rolled back and the session is not
left fully torn down. -/
theorem jack_init_rollback_cex :
    (jack_init failing_port_env fresh_data).2 = 1 ∧
    (jack_init failing_port_env fresh_data).1.jack_client = true ∧
    (jack_init failing_port_env fresh_data).1.jack_ports = some [true, false] := by
  refine ⟨?_, ?_, ?_⟩ <;> decide

/-- C7 amended: when any startup step fails, jack_init aborts the sequence
and returns the single failure code 1 (and returns 0 when every step
succeeds); it performs no rollback: once the client open succeeded the
returned session still holds the client handle and the port array exactly as
the aborted registration loop left it, and the worker-thread flag is only
set on full success. -/
theorem jack_init_failure_amended (env : jack_env) (d : jack_data)
    (h : d.jack_client = false) :
    ((jack_init env d).2 = if init_steps_ok env d.channels then 0 else 1) ∧
    (env.client_open_ok = true →
      (jack_init env d).1.jack_client = true ∧
      (jack_init env d).1.jack_ports =
        some (register_ports_from env (List.replicate d.channels false) 0 d.channels).1) ∧
    (init_steps_ok env d.channels = false →
      (jack_init env d).1.transfer_thread_started = d.transfer_thread_started) := by
  cases hco : env.client_open_ok with
  | false =>
    refine ⟨?_, ?_, ?_⟩
    · simp [jack_init, h, hco, init_steps_ok]
    · intro hc; exact absurd hc (by decide)
    · intro hfail; simp [jack_init, h, hco]
  | true =>
    cases hpr : (register_ports_from env (List.replicate d.channels false) 0 d.channels).2 with
    | false =>
      refine ⟨?_, fun _ => ?_, fun _ => ?_⟩ <;>
        simp [jack_init, h, hco, hpr, init_steps_ok]
    | true =>
      cases hb : env.set_buffer_size_callback_ok with
      | false =>
        refine ⟨?_, fun _ => ?_, fun _ => ?_⟩ <;>
          simp [jack_init, h, hco, hpr, hb, init_steps_ok]
      | true =>
        cases hp : env.set_process_callback_ok with
        | false =>
          refine ⟨?_, fun _ => ?_, fun _ => ?_⟩ <;>
            simp [jack_init, h, hco, hpr, hb, hp, init_steps_ok]
        | true =>
          cases ha : env.activate_ok with
          | false =>
            refine ⟨?_, fun _ => ?_, fun _ => ?_⟩ <;>
              simp [jack_init, h, hco, hpr, hb, hp, ha, init_steps_ok, create_rb]
          | true =>
            cases ht : env.pthread_create_ok with
            | false =>
              refine ⟨?_, fun _ => ?_, fun _ => ?_⟩ <;>
                simp [jack_init, h, hco, hpr, hb, hp, ha, ht, init_steps_ok, create_rb]
            | true =>
              refine ⟨?_, fun _ => ?_, fun hfail => ?_⟩
              · simp [jack_init, h, hco, hpr, hb, hp, ha, ht, init_steps_ok]
              · simp [jack_init, h, hco, hpr, hb, hp, ha, ht, create_rb]
              · exact absurd hfail (by simp [init_steps_ok, hco, hpr, hb, hp, ha, ht])

/-- Witness for amended C7 at the failing-port environment. -/
theorem jack_init_failure_amended_witness :
    (jack_init failing_port_env fresh_data).2 = 1 ∧
    (jack_init failing_port_env fresh_data).1.jack_client = true := by
  have hthm := jack_init_failure_amended failing_port_env fresh_data rfl
  refine ⟨?_, (hthm.2.1 rfl).1⟩
  have h1 := hthm.1
  rw [h1]
  decide

/-- C8 counterexample: on the live demo session the teardown trace is not
the claimed order that begins by clearing the activation flag: the code
deactivates the engine client first and clears the flag second. -/
theorem deactivate_jack_order_cex :
    (deactivate_jack demo_busy).2 ≠
      [teardown_event.clear_activated_flag, teardown_event.engine_deactivate,
       teardown_event.join_worker_thread, teardown_event.ports_unregistered,
       teardown_event.engine_client_closed, teardown_event.ring_buffer_destroyed] := by
  decide

/-- C8 amended: on a live session (open client, activated, worker running)
deactivate_jack performs exactly this order: deactivate the engine client,
then clear the activation flag, then join the worker thread, then unregister
the ports, then close the engine client, then release the ring buffer. -/
theorem deactivate_jack_order_amended (d : jack_data)
    (hc : d.jack_client = true) (ha : d.activated = true)
    (ht : d.transfer_thread_started = true) :
    (deactivate_jack d).2 =
      [teardown_event.engine_deactivate, teardown_event.clear_activated_flag,
       teardown_event.join_worker_thread, teardown_event.ports_unregistered,
       teardown_event.engine_client_closed, teardown_event.ring_buffer_destroyed] := by
  simp [deactivate_jack, hc, ha, ht]

/-- Witness for amended C8 on the live demo session. -/
theorem deactivate_jack_order_amended_witness :
    (deactivate_jack demo_busy).2 =
      [teardown_event.engine_deactivate, teardown_event.clear_activated_flag,
       teardown_event.join_worker_thread, teardown_event.ports_unregistered,
       teardown_event.engine_client_closed, teardown_event.ring_buffer_destroyed] :=
  deactivate_jack_order_amended demo_busy rfl rfl rfl
